import Mathlib

/-!
Shallow embedding of `src/tunnel/client.rs` of the wstunnel client
(`connect_to_server`, `run_tunnel`, `run_reverse_tunnel`) and proofs of the
spec claims about it.

The async Rust functions are modelled as pure Lean functions from an
environment of oracle outcomes (the results of the external calls:
`websocket::connect` / `http2::connect`, `jsonwebtoken::decode` with the
process-wide `JWT_DECODE` key, `url::Host::parse`, and the reverse-mode
`connector.connect`) to an event trace.  A `tokio::spawn` is recorded as a
`spawn` event carrying the spawned task's own trace, so "runs in the current
task" versus "runs fire-and-forget in a spawned task" is directly visible in
the trace shape.  The ever-running reverse loop is modelled on a finite
prefix of per-iteration worlds (one world per iteration of the Rust `loop`).
-/

namespace Wstunnel

/-- `TransportScheme` as matched in `client.rs` (`Ws | Wss | Http | Https`). -/
inductive TransportScheme where
  | Ws
  | Wss
  | Http
  | Https
deriving DecidableEq

/-- Modelled from the spec: the protocol component of `RemoteAddr`
(`RoutingClaim.p`); the concrete Rust enum lives outside `src/`.  Only `Tcp`
is needed concretely by the claims; other values are carried opaquely. -/
inductive LocalProtocol where
  | Tcp
  | Udp
  | Other (s : String)
deriving DecidableEq

/-- Modelled after `url::Host` (external crate): a parsed host is a domain
name or an IP address.  `client.rs` only constructs `Host::Domain(String::new())`
as the fallback and otherwise treats the value opaquely. -/
inductive Host where
  | Domain (s : String)
  | Ipv4 (a : Nat)
  | Ipv6 (a : Nat)
deriving DecidableEq

/-- `RemoteAddr { protocol, host, port }` as used by `client.rs`
(constructed at line 148-152 from the jwt claims). -/
structure RemoteAddr where
  protocol : LocalProtocol
  host : Host
  port : Nat
deriving DecidableEq

/-- Modelled from the spec: the signed routing-claim token payload
`JwtTunnelConfig` with fields `p` (protocol), `r` (host string), `rp`
(port number); the Rust struct lives outside `src/`. -/
structure JwtTunnelConfig where
  p : LocalProtocol
  r : String
  rp : Nat
deriving DecidableEq

/-- `jsonwebtoken::TokenData<JwtTunnelConfig>`: `client.rs` only reads
`.claims`, so only that field is modelled. -/
structure TokenData where
  claims : JwtTunnelConfig
deriving DecidableEq

/-- A hyper header value; `toStrOk` models `h.to_str().ok()` (``some`` iff the
raw bytes are visible ASCII). -/
structure HeaderValue where
  toStrOk : Option String
deriving DecidableEq

/-- The handshake response of a transport connect; `client.rs` only reads
`response.headers.get(COOKIE)`, modelled as the `cookie` field. -/
structure HandshakeResponse where
  cookie : Option HeaderValue
deriving DecidableEq

/-- Abstract transport/local connect error (`anyhow`-style). -/
structure ConnectError where
  msg : String
deriving DecidableEq

/-- Abstract error of the local listener's accept stream. -/
structure AcceptError where
  msg : String
deriving DecidableEq

/-- Abstract handle for one half of a local duplex stream. -/
structure DuplexStream where
  id : Nat
deriving DecidableEq

/-- The part of `WsClientConfig` that `client.rs` reads:
`client_cfg.remote_addr.scheme()` and `client_cfg.websocket_ping_frequency`. -/
structure WsClientConfig where
  remoteAddrScheme : TransportScheme
  websocketPingFrequency : Nat

/-- Process-wide oracles: `jwtDecode s` models
`jsonwebtoken::decode::<JwtTunnelConfig>(s, decode_key, validation).ok()` with
the lazily-initialized `JWT_DECODE` pair, and `hostParse s` models
`url::Host::parse(s).ok()` (``none`` when parsing fails). -/
structure Env where
  jwtDecode : String → Option TokenData
  hostParse : String → Option Host

/-- Outcomes of the two transport connectors for one connection attempt:
`wsConnect` is the result `tunnel::transport::websocket::connect` would
return, `http2Connect` the result of `tunnel::transport::http2::connect`
(readers/writers abstracted away, only the handshake response is kept). -/
structure ConnectWorld where
  wsConnect : Except ConnectError HandshakeResponse
  http2Connect : Except ConnectError HandshakeResponse

/-- One iteration's worth of external outcomes for the reverse tunnel loop:
the transport connect outcomes plus the outcome of `connector.connect`
(a pair `(local_rx, local_tx)` on success). -/
structure ReverseWorld where
  transport : ConnectWorld
  connectorResult : Except ConnectError (DuplexStream × DuplexStream)

/-- A relay direction: `propagate_local_to_remote` or
`propagate_remote_to_local` in `tunnel::transport::io`. -/
inductive Direction where
  | localToRemote
  | remoteToLocal
deriving DecidableEq

/-- Observable events of a task.  `run d` means the task awaits the relay
direction `d` to completion in place; `spawn body` means `tokio::spawn` of an
independent task whose own trace is `body`.  `sleep1s` is
`tokio::time::sleep(Duration::from_secs(1))`. -/
inductive REvent where
  | transportConnect (scheme : TransportScheme) (addr : RemoteAddr)
  | logDebug
  | logError
  | sleep1s
  | connectorCall (arg : Option RemoteAddr)
  | run (d : Direction)
  | spawn (body : List REvent)

/-- Dispatch on `client_cfg.remote_addr.scheme()`: `Ws | Wss` selects the
websocket connector, `Http | Https` the http2 connector (the `match` at
lines 30-41 and 108-135 of `client.rs`). -/
def schemeResult (cfg : WsClientConfig) (w : ConnectWorld) :
    Except ConnectError HandshakeResponse :=
  match cfg.remoteAddrScheme with
  | TransportScheme.Ws => w.wsConnect
  | TransportScheme.Wss => w.wsConnect
  | TransportScheme.Http => w.http2Connect
  | TransportScheme.Https => w.http2Connect

/-- `Bool`-valued success test for an `Except` result. -/
def isOkE {ε α : Type} : Except ε α → Bool
  | Except.ok _ => true
  | Except.error _ => false

/-- `connect_to_server` (lines 19-58): connect with the scheme-selected
transport, propagating a connect error with `?`; on success log the response
at debug level, `tokio::spawn` the local-to-remote direction, and await the
remote-to-local direction in the current task, then return `Ok(())`. -/
def connect_to_server (client_cfg : WsClientConfig) (remote_cfg : RemoteAddr)
    (w : ConnectWorld) : List REvent × Except ConnectError Unit :=
  match schemeResult client_cfg w with
  | Except.error e =>
      ([REvent.transportConnect client_cfg.remoteAddrScheme remote_cfg],
       Except.error e)
  | Except.ok _response =>
      ([REvent.transportConnect client_cfg.remoteAddrScheme remote_cfg,
        REvent.logDebug,
        REvent.spawn [REvent.run Direction.localToRemote],
        REvent.run Direction.remoteToLocal],
       Except.ok ())

/-- One item of the accept stream consumed by `run_tunnel`:
`Result<(stream, remote_addr), err>`, bundled with the `ConnectWorld` oracle
for the transport connect that the dispatched tunnel task will perform. -/
inductive AcceptItem where
  | acceptErr (e : AcceptError)
  | acceptOk (stream : DuplexStream) (addr : RemoteAddr) (w : ConnectWorld)

/-- The spawned per-connection tunnel task of `run_tunnel` (lines 80-87):
it runs `connect_to_server` and maps an error to an error log
(`.map_err(|err| error!(..))`), discarding the result. -/
def tunnelTaskBody (cfg : WsClientConfig) (addr : RemoteAddr)
    (w : ConnectWorld) : List REvent :=
  (connect_to_server cfg addr w).1 ++
    (match (connect_to_server cfg addr w).2 with
     | Except.ok _ => []
     | Except.error _ => [REvent.logError])

/-- The events the `run_tunnel` loop itself performs for one accept item:
on `Err` log the accept error and `continue`; on `Ok` spawn the tunnel task
(fire-and-forget). -/
def acceptItemEvents (cfg : WsClientConfig) (item : AcceptItem) : List REvent :=
  match item with
  | AcceptItem.acceptErr _ => [REvent.logError]
  | AcceptItem.acceptOk _ addr w => [REvent.spawn (tunnelTaskBody cfg addr w)]

/-- The while-let loop of `run_tunnel` over the accept sequence. -/
def forwardEvents (cfg : WsClientConfig) : List AcceptItem → List REvent
  | [] => []
  | item :: rest => acceptItemEvents cfg item ++ forwardEvents cfg rest

/-- `run_tunnel` (lines 60-91): consume the accept sequence and return
`Ok(())` when it is exhausted. -/
def run_tunnel (cfg : WsClientConfig) (incoming : List AcceptItem) :
    List REvent × Except ConnectError Unit :=
  (forwardEvents cfg incoming, Except.ok ())

/-- The routing-claim decode of `run_reverse_tunnel` (lines 139-152):
`response.headers.get(COOKIE).and_then(to_str.ok).and_then(jwt decode)`
mapped to a fresh `RemoteAddr` whose host falls back to
`Host::Domain(String::new())` when `Host::parse` fails. -/
def decodeRoutingClaim (env : Env) (response : HandshakeResponse) :
    Option RemoteAddr :=
  ((response.cookie.bind (fun h => h.toStrOk)).bind
      (fun h => env.jwtDecode h)).map
    (fun jwt =>
      { protocol := jwt.claims.p
        host := (env.hostParse jwt.claims.r).getD (Host.Domain "")
        port := jwt.claims.rp })

/-- One iteration of the `loop` in `run_reverse_tunnel` (lines 98-175):
transport connect with the caller-supplied `remote_addr`; on failure log an
error, sleep 1 second and `continue`; on success log the response at debug
level, decode the routing claim, call `connector.connect(&remote)`; on
connector failure log an error and `continue` (no sleep); on success spawn
the tunnel task, which itself spawns the local-to-remote direction and awaits
the remote-to-local direction. -/
def reverseIteration (env : Env) (cfg : WsClientConfig)
    (remote_addr : RemoteAddr) (w : ReverseWorld) : List REvent :=
  match schemeResult cfg w.transport with
  | Except.error _ =>
      [REvent.transportConnect cfg.remoteAddrScheme remote_addr,
       REvent.logError,
       REvent.sleep1s]
  | Except.ok response =>
      let remote := decodeRoutingClaim env response
      match w.connectorResult with
      | Except.error _ =>
          [REvent.transportConnect cfg.remoteAddrScheme remote_addr,
           REvent.logDebug,
           REvent.connectorCall remote,
           REvent.logError]
      | Except.ok _ =>
          [REvent.transportConnect cfg.remoteAddrScheme remote_addr,
           REvent.logDebug,
           REvent.connectorCall remote,
           REvent.spawn
             [REvent.spawn [REvent.run Direction.localToRemote],
              REvent.run Direction.remoteToLocal]]

/-- `run_reverse_tunnel`, truncated to a finite prefix of iterations (one
`ReverseWorld` per iteration of the never-returning Rust `loop`).  The
caller-supplied `remote_addr` is an immutable binding in the Rust code and is
handed unchanged to every iteration. -/
def run_reverse_tunnel (env : Env) (cfg : WsClientConfig)
    (remote_addr : RemoteAddr) : List ReverseWorld → List REvent
  | [] => []
  | w :: ws =>
      reverseIteration env cfg remote_addr w ++
        run_reverse_tunnel env cfg remote_addr ws

/-! Trace observers.  All of them look only at the top level of a trace: a
`spawn` event is a single event whose body belongs to another task. -/

/-- Directions awaited to completion at the top level of a trace (in the
task's own execution, not inside a spawned task). -/
def topLevelRuns : List REvent → List Direction
  | [] => []
  | REvent.run d :: es => d :: topLevelRuns es
  | _ :: es => topLevelRuns es

/-- The target addresses of the transport connect calls of a trace, in
order. -/
def transportTargets : List REvent → List RemoteAddr
  | [] => []
  | REvent.transportConnect _ a :: es => a :: transportTargets es
  | _ :: es => transportTargets es

/-- The arguments passed to `connector.connect` in a trace, in order. -/
def connectorArgs : List REvent → List (Option RemoteAddr)
  | [] => []
  | REvent.connectorCall a :: es => a :: connectorArgs es
  | _ :: es => connectorArgs es

/-- Number of 1-second backoff sleeps at the top level of a trace. -/
def countSleeps : List REvent → Nat
  | [] => 0
  | REvent.sleep1s :: es => countSleeps es + 1
  | _ :: es => countSleeps es

/-- Number of tasks spawned at the top level of a trace. -/
def countSpawns : List REvent → Nat
  | [] => 0
  | REvent.spawn _ :: es => countSpawns es + 1
  | _ :: es => countSpawns es

/-- Number of error log lines at the top level of a trace. -/
def countLogErrors : List REvent → Nat
  | [] => 0
  | REvent.logError :: es => countLogErrors es + 1
  | _ :: es => countLogErrors es

/-- Number of `Ok` items in an accept sequence. -/
def countAcceptOks : List AcceptItem → Nat
  | [] => 0
  | AcceptItem.acceptOk _ _ _ :: rest => countAcceptOks rest + 1
  | _ :: rest => countAcceptOks rest

/-- Number of `Err` items in an accept sequence. -/
def countAcceptErrs : List AcceptItem → Nat
  | [] => 0
  | AcceptItem.acceptErr _ :: rest => countAcceptErrs rest + 1
  | _ :: rest => countAcceptErrs rest

/-! Concrete sample data, used by witnesses and counterexamples. -/

/-- A sample configured destination. -/
def sampleAddr : RemoteAddr :=
  { protocol := LocalProtocol.Tcp, host := Host.Domain "localhost", port := 7 }

/-- A sample client configuration using the websocket scheme. -/
def sampleCfg : WsClientConfig :=
  { remoteAddrScheme := TransportScheme.Ws, websocketPingFrequency := 30 }

/-- A handshake response carrying no cookie header. -/
def respNoCookie : HandshakeResponse := { cookie := none }

/-- A transport world in which both connectors succeed with a cookie-less
response. -/
def okNoCookieCW : ConnectWorld :=
  { wsConnect := Except.ok respNoCookie, http2Connect := Except.ok respNoCookie }

/-- A transport world in which both connectors fail. -/
def failCW : ConnectWorld :=
  { wsConnect := Except.error { msg := "connection refused" }
    http2Connect := Except.error { msg := "connection refused" } }

/-- A sample pair of local stream halves. -/
def sampleStreams : DuplexStream × DuplexStream := ({ id := 0 }, { id := 1 })

/-- Reverse-loop world: transport succeeds (no cookie), local connector
succeeds. -/
def okNoCookieRW : ReverseWorld :=
  { transport := okNoCookieCW, connectorResult := Except.ok sampleStreams }

/-- Reverse-loop world: transport fails. -/
def failRW : ReverseWorld :=
  { transport := failCW, connectorResult := Except.ok sampleStreams }

/-- Reverse-loop world: transport succeeds, local connector fails. -/
def connFailRW : ReverseWorld :=
  { transport := okNoCookieCW
    connectorResult := Except.error { msg := "no local endpoint" } }

/-- An environment in which no token verifies and no host parses. -/
def emptyEnv : Env :=
  { jwtDecode := fun _ => none, hostParse := fun _ => none }

/-- The routing claim used by the round-trip witness:
`p = tcp, r = example.com, rp = 8080`. -/
def sampleClaims : JwtTunnelConfig :=
  { p := LocalProtocol.Tcp, r := "example.com", rp := 8080 }

/-- An environment whose decode key accepts exactly the token string
"signed-token" with `sampleClaims`, and which parses "example.com". -/
def tokenEnv : Env :=
  { jwtDecode := fun s =>
      if s = "signed-token" then some { claims := sampleClaims } else none
    hostParse := fun s =>
      if s = "example.com" then some (Host.Domain "example.com") else none }

/-- A handshake response carrying the sample signed token in its cookie. -/
def cookieResp : HandshakeResponse :=
  { cookie := some { toStrOk := some "signed-token" } }

/-- Transport world succeeding with the cookie-carrying response. -/
def cookieCW : ConnectWorld :=
  { wsConnect := Except.ok cookieResp, http2Connect := Except.ok cookieResp }

/-- Reverse-loop world: transport succeeds with the sample cookie, local
connector succeeds. -/
def cookieRW : ReverseWorld :=
  { transport := cookieCW, connectorResult := Except.ok sampleStreams }

/-- The claim carried by the bad-host witness: its `r` field does not parse
as a host. -/
def badHostClaims : JwtTunnelConfig :=
  { p := LocalProtocol.Tcp, r := "%%not a host%%", rp := 9 }

/-- An environment accepting "signed-token" with `badHostClaims` and failing
every host parse. -/
def badHostEnv : Env :=
  { jwtDecode := fun s =>
      if s = "signed-token" then some { claims := badHostClaims } else none
    hostParse := fun _ => none }

/-! Helper lemmas about the trace observers. -/

theorem topLevelRuns_append (xs ys : List REvent) :
    topLevelRuns (xs ++ ys) = topLevelRuns xs ++ topLevelRuns ys := by
  induction xs with
  | nil => rfl
  | cons e es ih => cases e <;> simp [topLevelRuns, ih]

theorem transportTargets_append (xs ys : List REvent) :
    transportTargets (xs ++ ys) = transportTargets xs ++ transportTargets ys := by
  induction xs with
  | nil => rfl
  | cons e es ih => cases e <;> simp [transportTargets, ih]

theorem connectorArgs_append (xs ys : List REvent) :
    connectorArgs (xs ++ ys) = connectorArgs xs ++ connectorArgs ys := by
  induction xs with
  | nil => rfl
  | cons e es ih => cases e <;> simp [connectorArgs, ih]

theorem countSleeps_append (xs ys : List REvent) :
    countSleeps (xs ++ ys) = countSleeps xs + countSleeps ys := by
  induction xs with
  | nil => simp [countSleeps]
  | cons e es ih => cases e <;> (simp [countSleeps, ih]; try omega)

theorem countSpawns_append (xs ys : List REvent) :
    countSpawns (xs ++ ys) = countSpawns xs + countSpawns ys := by
  induction xs with
  | nil => simp [countSpawns]
  | cons e es ih => cases e <;> (simp [countSpawns, ih]; try omega)

theorem countLogErrors_append (xs ys : List REvent) :
    countLogErrors (xs ++ ys) = countLogErrors xs + countLogErrors ys := by
  induction xs with
  | nil => simp [countLogErrors]
  | cons e es ih => cases e <;> (simp [countLogErrors, ih]; try omega)

theorem forwardEvents_append (cfg : WsClientConfig) (xs ys : List AcceptItem) :
    forwardEvents cfg (xs ++ ys) = forwardEvents cfg xs ++ forwardEvents cfg ys := by
  induction xs with
  | nil => rfl
  | cons item rest ih => simp [forwardEvents, ih]

theorem countSpawns_forwardEvents (cfg : WsClientConfig) (items : List AcceptItem) :
    countSpawns (forwardEvents cfg items) = countAcceptOks items := by
  induction items with
  | nil => rfl
  | cons item rest ih =>
      cases item <;>
        simp [forwardEvents, acceptItemEvents, countSpawns_append, countSpawns,
              countAcceptOks, ih]

theorem countLogErrors_forwardEvents (cfg : WsClientConfig) (items : List AcceptItem) :
    countLogErrors (forwardEvents cfg items) = countAcceptErrs items := by
  induction items with
  | nil => rfl
  | cons item rest ih =>
      cases item <;>
        simp [forwardEvents, acceptItemEvents, countLogErrors_append, countLogErrors,
              countAcceptErrs, ih]

theorem topLevelRuns_forwardEvents (cfg : WsClientConfig) (items : List AcceptItem) :
    topLevelRuns (forwardEvents cfg items) = [] := by
  induction items with
  | nil => rfl
  | cons item rest ih =>
      cases item <;>
        simp [forwardEvents, acceptItemEvents, topLevelRuns_append, topLevelRuns, ih]

theorem countAcceptOks_append (xs ys : List AcceptItem) :
    countAcceptOks (xs ++ ys) = countAcceptOks xs + countAcceptOks ys := by
  induction xs with
  | nil => simp [countAcceptOks]
  | cons item rest ih => cases item <;> (simp [countAcceptOks, ih]; try omega)

theorem transportTargets_iteration (env : Env) (cfg : WsClientConfig)
    (addr : RemoteAddr) (w : ReverseWorld) :
    transportTargets (reverseIteration env cfg addr w) = [addr] := by
  cases h : schemeResult cfg w.transport with
  | error e => simp [reverseIteration, h, transportTargets]
  | ok resp =>
      cases hc : w.connectorResult <;>
        simp [reverseIteration, h, hc, transportTargets]

/-! The claims. -/

/-- Claim C4: for every transport-connector failure in the reverse tunnel
loop (either scheme family), the loop logs an error, sleeps a fixed 1-second
backoff, and restarts the iteration; N consecutive connector failures produce
N backoff sleeps, with unbounded retries and no error propagated to the
caller (the Rust `loop` never returns; the model accordingly yields only a
trace, never a result). -/
theorem C4_reverse_backoff (env : Env) (cfg : WsClientConfig)
    (addr : RemoteAddr) (ws : List ReverseWorld)
    (h : ∀ w ∈ ws, isOkE (schemeResult cfg w.transport) = false) :
    run_reverse_tunnel env cfg addr ws =
      (List.replicate ws.length
        [REvent.transportConnect cfg.remoteAddrScheme addr,
         REvent.logError, REvent.sleep1s]).flatten
    ∧ countSleeps (run_reverse_tunnel env cfg addr ws) = ws.length
    ∧ countLogErrors (run_reverse_tunnel env cfg addr ws) = ws.length := by
  induction ws with
  | nil => exact ⟨rfl, rfl, rfl⟩
  | cons w rest ih =>
      have hw := h w (List.mem_cons_self _ _)
      obtain ⟨h1, h2, h3⟩ := ih (fun x hx => h x (List.mem_cons_of_mem _ hx))
      cases hsch : schemeResult cfg w.transport with
      | ok r => rw [hsch] at hw; simp [isOkE] at hw
      | error e =>
          have hiter : reverseIteration env cfg addr w =
              [REvent.transportConnect cfg.remoteAddrScheme addr,
               REvent.logError, REvent.sleep1s] := by
            simp [reverseIteration, hsch]
          refine ⟨?_, ?_, ?_⟩
          · simp [run_reverse_tunnel, hiter, h1, List.replicate_succ]
          · simp [run_reverse_tunnel, hiter, countSleeps_append, countSleeps, h2]
          · simp [run_reverse_tunnel, hiter, countLogErrors_append, countLogErrors, h3]

/-- Witness for C4: two consecutive transport failures produce exactly two
backoff sleeps. -/
theorem C4_reverse_backoff_witness :
    countSleeps (run_reverse_tunnel emptyEnv sampleCfg sampleAddr [failRW, failRW]) = 2 :=
  (C4_reverse_backoff emptyEnv sampleCfg sampleAddr [failRW, failRW] (by decide)).2.1

/-- Claim C5: in the forward tunnel loop an accept-error item is logged and
skipped without terminating the loop: the trace of `pre ++ [err] ++ post` is
the trace of `pre`, then the error log, then exactly the trace of `post`, and
each successful item of the whole sequence is dispatched as an independent
spawned task regardless of how many error items preceded it. -/
theorem C5_forward_loop_skips_errors (cfg : WsClientConfig)
    (pre post : List AcceptItem) (e : AcceptError) :
    (run_tunnel cfg (pre ++ AcceptItem.acceptErr e :: post)).1 =
      (run_tunnel cfg pre).1 ++ REvent.logError :: (run_tunnel cfg post).1
    ∧ countSpawns (run_tunnel cfg (pre ++ AcceptItem.acceptErr e :: post)).1 =
        countAcceptOks pre + countAcceptOks post := by
  constructor
  · simp [run_tunnel, forwardEvents_append, forwardEvents, acceptItemEvents]
  · simp [run_tunnel, countSpawns_forwardEvents, countAcceptOks_append, countAcceptOks]

/-- Claim C9: `run_tunnel` returns success exactly when the accept sequence
is exhausted, for every input sequence: it never awaits a relay direction in
its own task (fire-and-forget dispatch, one spawned task per successful
item), and top-level error logs come only from accept errors — per-connection
failures are logged inside the spawned task bodies and never change the
returned value. -/
theorem C9_run_tunnel_returns_ok (cfg : WsClientConfig) (items : List AcceptItem) :
    (run_tunnel cfg items).2 = Except.ok ()
    ∧ topLevelRuns (run_tunnel cfg items).1 = []
    ∧ countSpawns (run_tunnel cfg items).1 = countAcceptOks items
    ∧ countLogErrors (run_tunnel cfg items).1 = countAcceptErrs items :=
  ⟨rfl, topLevelRuns_forwardEvents cfg items, countSpawns_forwardEvents cfg items,
   countLogErrors_forwardEvents cfg items⟩

/-- Claim C6: for every handshake response in the reverse tunnel loop whose
cookie carries a token that verifies against the process-wide decode key and
whose host field parses, the resolved destination equals
`RemoteAddr { protocol := claims.p, host := parsed r, port := claims.rp }`,
and that destination is exactly what the local Connector is called with. -/
theorem C6_routing_claim_roundtrip (env : Env) (cfg : WsClientConfig)
    (addr : RemoteAddr) (w : ReverseWorld) (resp : HandshakeResponse)
    (hv : HeaderValue) (s : String) (claims : JwtTunnelConfig) (host : Host)
    (hresp : schemeResult cfg w.transport = Except.ok resp)
    (hcookie : resp.cookie = some hv)
    (hstr : hv.toStrOk = some s)
    (hjwt : env.jwtDecode s = some { claims := claims })
    (hhost : env.hostParse claims.r = some host) :
    decodeRoutingClaim env resp =
      some { protocol := claims.p, host := host, port := claims.rp }
    ∧ connectorArgs (reverseIteration env cfg addr w) =
        [some { protocol := claims.p, host := host, port := claims.rp }] := by
  have hdec : decodeRoutingClaim env resp =
      some { protocol := claims.p, host := host, port := claims.rp } := by
    simp [decodeRoutingClaim, hcookie, hstr, hjwt, hhost]
  refine ⟨hdec, ?_⟩
  cases hconn : w.connectorResult <;>
    simp [reverseIteration, hresp, hdec, hconn, connectorArgs]

/-- Witness for C6: the round-trip of the spec — a token with
`p = tcp, r = "example.com", rp = 8080` that verifies resolves to
`RemoteAddr { protocol := tcp, host := Domain "example.com", port := 8080 }`. -/
theorem C6_routing_claim_roundtrip_witness :
    decodeRoutingClaim tokenEnv cookieResp =
      some { protocol := LocalProtocol.Tcp, host := Host.Domain "example.com",
             port := 8080 }
    ∧ connectorArgs (reverseIteration tokenEnv sampleCfg sampleAddr cookieRW) =
        [some { protocol := LocalProtocol.Tcp, host := Host.Domain "example.com",
                port := 8080 }] :=
  C6_routing_claim_roundtrip tokenEnv sampleCfg sampleAddr cookieRW cookieResp
    { toStrOk := some "signed-token" } "signed-token" sampleClaims
    (Host.Domain "example.com") rfl rfl rfl (by decide) (by decide)

/-- Claim C7: for every verifiable routing-claim token whose host field `r`
fails to parse, the decode is total (no panic, no propagated error): it
yields a `RemoteAddr` whose host is the empty domain with the token's
protocol and port, and the iteration still proceeds to the local connect
step (a `connectorCall` with that degenerate destination appears in the
trace). -/
theorem C7_bad_host_degrades (env : Env) (cfg : WsClientConfig)
    (addr : RemoteAddr) (w : ReverseWorld) (resp : HandshakeResponse)
    (hv : HeaderValue) (s : String) (claims : JwtTunnelConfig)
    (hresp : schemeResult cfg w.transport = Except.ok resp)
    (hcookie : resp.cookie = some hv)
    (hstr : hv.toStrOk = some s)
    (hjwt : env.jwtDecode s = some { claims := claims })
    (hhost : env.hostParse claims.r = none) :
    decodeRoutingClaim env resp =
      some { protocol := claims.p, host := Host.Domain "", port := claims.rp }
    ∧ connectorArgs (reverseIteration env cfg addr w) =
        [some { protocol := claims.p, host := Host.Domain "", port := claims.rp }] := by
  have hdec : decodeRoutingClaim env resp =
      some { protocol := claims.p, host := Host.Domain "", port := claims.rp } := by
    simp [decodeRoutingClaim, hcookie, hstr, hjwt, hhost]
  refine ⟨hdec, ?_⟩
  cases hconn : w.connectorResult <;>
    simp [reverseIteration, hresp, hdec, hconn, connectorArgs]

/-- Witness for C7: a verifiable token whose host string parses in no way
still resolves, with the empty domain as host. -/
theorem C7_bad_host_degrades_witness :
    decodeRoutingClaim badHostEnv cookieResp =
      some { protocol := LocalProtocol.Tcp, host := Host.Domain "", port := 9 }
    ∧ connectorArgs (reverseIteration badHostEnv sampleCfg sampleAddr cookieRW) =
        [some { protocol := LocalProtocol.Tcp, host := Host.Domain "", port := 9 }] :=
  C7_bad_host_degrades badHostEnv sampleCfg sampleAddr cookieRW cookieResp
    { toStrOk := some "signed-token" } "signed-token" badHostClaims
    rfl rfl rfl (by decide) rfl

/-- Claim C8: for every failure of the local Connector in the reverse tunnel
loop, the loop logs the error and restarts the iteration immediately: the
iteration's trace is transport connect, debug log, connector call, error log
— with no backoff sleep in this branch — and the loop continues directly
with the next iteration. -/
theorem C8_connector_failure_no_backoff (env : Env) (cfg : WsClientConfig)
    (addr : RemoteAddr) (w : ReverseWorld) (ws : List ReverseWorld)
    (resp : HandshakeResponse) (e : ConnectError)
    (hresp : schemeResult cfg w.transport = Except.ok resp)
    (hconn : w.connectorResult = Except.error e) :
    reverseIteration env cfg addr w =
      [REvent.transportConnect cfg.remoteAddrScheme addr, REvent.logDebug,
       REvent.connectorCall (decodeRoutingClaim env resp), REvent.logError]
    ∧ countSleeps (reverseIteration env cfg addr w) = 0
    ∧ run_reverse_tunnel env cfg addr (w :: ws) =
        reverseIteration env cfg addr w ++ run_reverse_tunnel env cfg addr ws := by
  have h1 : reverseIteration env cfg addr w =
      [REvent.transportConnect cfg.remoteAddrScheme addr, REvent.logDebug,
       REvent.connectorCall (decodeRoutingClaim env resp), REvent.logError] := by
    simp [reverseIteration, hresp, hconn]
  exact ⟨h1, by rw [h1]; rfl, rfl⟩

/-- Witness for C8: a concrete iteration with a successful transport connect
and a failing local connector sleeps zero times. -/
theorem C8_connector_failure_no_backoff_witness :
    countSleeps (reverseIteration emptyEnv sampleCfg sampleAddr connFailRW) = 0 :=
  (C8_connector_failure_no_backoff emptyEnv sampleCfg sampleAddr connFailRW []
    respNoCookie { msg := "no local endpoint" } rfl rfl).2.1

/-- Claim C10: the `RemoteAddr` argument of `run_reverse_tunnel` is never
modified: for every environment (including ones decoding arbitrary routing
claims) every iteration's transport connect receives exactly the
caller-supplied address, and a decoded routing claim only determines the
separate fresh `RemoteAddr` value handed to the local Connector. -/
theorem C10_remote_addr_unchanged (env : Env) (cfg : WsClientConfig)
    (addr : RemoteAddr) (ws : List ReverseWorld) :
    transportTargets (run_reverse_tunnel env cfg addr ws) =
      List.replicate ws.length addr
    ∧ ∀ (w : ReverseWorld) (resp : HandshakeResponse),
        schemeResult cfg w.transport = Except.ok resp →
        connectorArgs (reverseIteration env cfg addr w) =
          [decodeRoutingClaim env resp] := by
  constructor
  · induction ws with
    | nil => rfl
    | cons w rest ih =>
        simp [run_reverse_tunnel, transportTargets_append,
              transportTargets_iteration, ih, List.replicate_succ]
  · intro w resp hresp
    cases hconn : w.connectorResult <;>
      simp [reverseIteration, hresp, hconn, connectorArgs]

/-- Witness for C10: two iterations decoding a real routing claim still aim
both transport connects at the caller-supplied address, while the connector
receives the decoded claim. -/
theorem C10_remote_addr_unchanged_witness :
    transportTargets (run_reverse_tunnel tokenEnv sampleCfg sampleAddr
        [cookieRW, cookieRW]) = List.replicate 2 sampleAddr
    ∧ connectorArgs (reverseIteration tokenEnv sampleCfg sampleAddr cookieRW) =
        [decodeRoutingClaim tokenEnv cookieResp] :=
  ⟨(C10_remote_addr_unchanged tokenEnv sampleCfg sampleAddr [cookieRW, cookieRW]).1,
   (C10_remote_addr_unchanged tokenEnv sampleCfg sampleAddr [cookieRW, cookieRW]).2
     cookieRW cookieResp rfl⟩

/-- Claim C1 counterexample: two fully successful reverse-loop iterations
(transport connect and local connect both succeed) spawn two relay tasks and
the loop's own trace awaits no relay direction at all — refuting, at this
concrete input, that the remote-to-local direction runs in the loop's own
task to completion before the next iteration (and hence refuting that at
most one relay session is in flight). -/
theorem C1_counterexample :
    countSpawns (run_reverse_tunnel emptyEnv sampleCfg sampleAddr
        [okNoCookieRW, okNoCookieRW]) = 2
    ∧ topLevelRuns (run_reverse_tunnel emptyEnv sampleCfg sampleAddr
        [okNoCookieRW, okNoCookieRW]) = []
    ∧ Direction.remoteToLocal ∉
        topLevelRuns (run_reverse_tunnel emptyEnv sampleCfg sampleAddr
          [okNoCookieRW, okNoCookieRW]) := by
  refine ⟨?_, ?_, ?_⟩ <;> decide

/-- Claim C1 (amended): after a successful transport connect and local
connect, the reverse loop spawns the whole relay as one independent task —
inside which the local-to-remote direction is spawned and the remote-to-local
direction is awaited — and the loop's own task awaits nothing, so the next
iteration begins immediately and multiple relay sessions may be in flight. -/
theorem C1_relay_spawned_not_awaited (env : Env) (cfg : WsClientConfig)
    (addr : RemoteAddr) (w : ReverseWorld) (resp : HandshakeResponse)
    (s : DuplexStream × DuplexStream)
    (hresp : schemeResult cfg w.transport = Except.ok resp)
    (hconn : w.connectorResult = Except.ok s) :
    reverseIteration env cfg addr w =
      [REvent.transportConnect cfg.remoteAddrScheme addr, REvent.logDebug,
       REvent.connectorCall (decodeRoutingClaim env resp),
       REvent.spawn
         [REvent.spawn [REvent.run Direction.localToRemote],
          REvent.run Direction.remoteToLocal]]
    ∧ topLevelRuns (reverseIteration env cfg addr w) = [] := by
  have h1 : reverseIteration env cfg addr w =
      [REvent.transportConnect cfg.remoteAddrScheme addr, REvent.logDebug,
       REvent.connectorCall (decodeRoutingClaim env resp),
       REvent.spawn
         [REvent.spawn [REvent.run Direction.localToRemote],
          REvent.run Direction.remoteToLocal]] := by
    simp [reverseIteration, hresp, hconn]
  exact ⟨h1, by rw [h1]; rfl⟩

/-- Witness for the amended C1: a concrete successful iteration whose loop
task awaits no relay direction. -/
theorem C1_relay_spawned_not_awaited_witness :
    topLevelRuns (reverseIteration emptyEnv sampleCfg sampleAddr okNoCookieRW) = [] :=
  (C1_relay_spawned_not_awaited emptyEnv sampleCfg sampleAddr okNoCookieRW
    respNoCookie sampleStreams rfl rfl).2

/-- Claim C2 counterexample: an iteration whose handshake response carries no
cookie calls the local Connector with `none`, not with the previous working
`RemoteAddr` (here the configured `sampleAddr` of the first iteration) —
refuting the claim at this concrete input. -/
theorem C2_counterexample :
    connectorArgs (reverseIteration emptyEnv sampleCfg sampleAddr okNoCookieRW) =
      [(none : Option RemoteAddr)]
    ∧ connectorArgs (reverseIteration emptyEnv sampleCfg sampleAddr okNoCookieRW) ≠
        [some sampleAddr] := by
  refine ⟨?_, ?_⟩ <;> decide

/-- Claim C2 (amended): in every iteration where the handshake response
carries no cookie header, or the cookie is not a string, or the token fails
verification/parsing, the routing-claim decode yields nothing and the local
Connector is called with `none` — an absent destination.  No previous
working `RemoteAddr` is retained across iterations; the configured address
is used only for the transport connect. -/
theorem C2_failed_decode_yields_none (env : Env) (cfg : WsClientConfig)
    (addr : RemoteAddr) (w : ReverseWorld) (resp : HandshakeResponse)
    (hresp : schemeResult cfg w.transport = Except.ok resp)
    (hnone : resp.cookie = none
      ∨ (∃ hv, resp.cookie = some hv ∧ hv.toStrOk = none)
      ∨ (∃ hv s, resp.cookie = some hv ∧ hv.toStrOk = some s
            ∧ env.jwtDecode s = none)) :
    decodeRoutingClaim env resp = none
    ∧ connectorArgs (reverseIteration env cfg addr w) =
        [(none : Option RemoteAddr)] := by
  have hdec : decodeRoutingClaim env resp = none := by
    rcases hnone with h | ⟨hv, h1, h2⟩ | ⟨hv, s, h1, h2, h3⟩
    · simp [decodeRoutingClaim, h]
    · simp [decodeRoutingClaim, h1, h2]
    · simp [decodeRoutingClaim, h1, h2, h3]
  refine ⟨hdec, ?_⟩
  cases hconn : w.connectorResult <;>
    simp [reverseIteration, hresp, hdec, hconn, connectorArgs]

/-- Witness for the amended C2: a cookie-less response makes the iteration
call the Connector with `none`. -/
theorem C2_failed_decode_yields_none_witness :
    decodeRoutingClaim emptyEnv respNoCookie = none
    ∧ connectorArgs (reverseIteration emptyEnv sampleCfg sampleAddr okNoCookieRW) =
        [(none : Option RemoteAddr)] :=
  C2_failed_decode_yields_none emptyEnv sampleCfg sampleAddr okNoCookieRW
    respNoCookie rfl (Or.inl rfl)

/-- Claim C3 counterexample: a successful `connect_to_server` call returns
`Ok` while its own task has awaited only the remote-to-local direction — the
local-to-remote direction was spawned and never awaited, refuting, at this
concrete input, that success is returned only once both relay directions
have terminated. -/
theorem C3_counterexample :
    (connect_to_server sampleCfg sampleAddr okNoCookieCW).2 = Except.ok ()
    ∧ topLevelRuns (connect_to_server sampleCfg sampleAddr okNoCookieCW).1 =
        [Direction.remoteToLocal]
    ∧ Direction.localToRemote ∉
        topLevelRuns (connect_to_server sampleCfg sampleAddr okNoCookieCW).1 := by
  refine ⟨rfl, ?_, ?_⟩ <;> decide

/-- Claim C3 (amended): `connect_to_server` returns an error immediately if
and only if the transport connect step fails; when the connect step succeeds
it returns success once the remote-to-local direction has terminated, having
spawned the local-to-remote direction as an independent task that may outlive
the call. -/
theorem C3_connect_to_server_spec (cfg : WsClientConfig) (addr : RemoteAddr)
    (w : ConnectWorld) :
    isOkE (connect_to_server cfg addr w).2 = isOkE (schemeResult cfg w)
    ∧ (∀ e, schemeResult cfg w = Except.error e →
        connect_to_server cfg addr w =
          ([REvent.transportConnect cfg.remoteAddrScheme addr], Except.error e))
    ∧ (∀ resp, schemeResult cfg w = Except.ok resp →
        connect_to_server cfg addr w =
          ([REvent.transportConnect cfg.remoteAddrScheme addr, REvent.logDebug,
            REvent.spawn [REvent.run Direction.localToRemote],
            REvent.run Direction.remoteToLocal], Except.ok ())) := by
  refine ⟨?_, ?_, ?_⟩
  · cases h : schemeResult cfg w <;> simp [connect_to_server, h, isOkE]
  · intro e he; simp [connect_to_server, he]
  · intro resp hr; simp [connect_to_server, hr]

/-- Witness for the amended C3: a concrete successful connect returns `Ok`
with the spawned local-to-remote task and the awaited remote-to-local
direction visible in the trace. -/
theorem C3_connect_to_server_spec_witness :
    connect_to_server sampleCfg sampleAddr okNoCookieCW =
      ([REvent.transportConnect TransportScheme.Ws sampleAddr, REvent.logDebug,
        REvent.spawn [REvent.run Direction.localToRemote],
        REvent.run Direction.remoteToLocal], Except.ok ()) :=
  (C3_connect_to_server_spec sampleCfg sampleAddr okNoCookieCW).2.2 respNoCookie rfl

end Wstunnel
